import Mathlib

/-!
Verification of the `RepeatingTimer` class from `headless.py`.

The timer state is embedded shallowly: the mutable attributes of a
`RepeatingTimer` instance become fields of `TimerState`; the three
`threading.Event` objects become booleans; a callback invocation is
recorded by incrementing the `fired` counter (the callback itself is
opaque to the timer).  Numeric attributes (`interval`, `sleep_chunk`,
`count`) are rationals, matching the exact arithmetic the claims use.
The blocking call `reset_event.wait(sleep_chunk)` returns a boolean
observation; the loop is modelled by feeding the sequence of those
observations as a list and bounding the outer loop with fuel.
-/

namespace Headless

/-- The mutable state of one `RepeatingTimer` instance.
`start_event`, `reset_event`, `terminate_event` are the three
`threading.Event` flags; `fired` counts callback invocations. -/
structure TimerState where
  interval : ℚ
  sleep_chunk : ℚ
  count : ℚ
  defer : Bool
  start_event : Bool
  reset_event : Bool
  terminate_event : Bool
  fired : ℕ
  deriving DecidableEq

namespace RepeatingTimer

/-- One invocation of `self.callback(*self.callback_args, **self.callback_kwargs)`. -/
def fire (s : TimerState) : TimerState :=
  { s with fired := s.fired + 1 }

/-- Guard of the inner `while` loop in `run`:
`self.count > 0 and self.start_event.is_set() and self.interval > 0`. -/
def innerCond (s : TimerState) : Bool :=
  decide (0 < s.count) && s.start_event && decide (0 < s.interval)

/-- One iteration of the inner loop body of `run`.  `signaled` is the
value returned by `self.reset_event.wait(self.sleep_chunk)`:
if signaled, clear the event and reload `count`; then `self.count -= 1`
unconditionally; then if `count <= 0`, invoke the callback and reload
`count`.  (The `tick_log` branch only logs and is omitted.) -/
def runCycle (s : TimerState) (signaled : Bool) : TimerState :=
  let s1 := if signaled then
    { s with reset_event := false, count := s.interval / s.sleep_chunk }
    else s
  let s2 := { s1 with count := s1.count - 1 }
  if s2.count ≤ 0 then
    { fire s2 with count := s2.interval / s2.sleep_chunk }
  else s2

/-- The inner `while` loop of `run`, consuming one wait observation per
iteration; returns the final state and the unconsumed observations. -/
def innerLoop : List Bool → TimerState → TimerState × List Bool
  | [], s => (s, [])
  | b :: rest, s =>
    if innerCond s then innerLoop rest (runCycle s b) else (s, b :: rest)

/-- The outer `while not self.terminate_event.is_set()` loop of `run`,
bounded by fuel. -/
def run : ℕ → TimerState → List Bool → TimerState
  | 0, s, _ => s
  | n + 1, s, sigs =>
    if s.terminate_event then s
    else
      let p := innerLoop sigs s
      run n p.1 p.2

/-- Method `start_timer`: log, then if `not defer and interval > 0` invoke the
callback, then `self.start_event.set()`. -/
def start_timer (s : TimerState) : TimerState :=
  let s1 := if s.defer = false ∧ 0 < s.interval then fire s else s
  { s1 with start_event := true }

/-- Method `stop_timer`: log, then `self.start_event.clear()`; the line
resetting `count` is commented out in the source. -/
def stop_timer (s : TimerState) : TimerState :=
  { s with start_event := false }

/-- Method `restart_timer`: reload `count`, optionally invoke the callback,
then signal a reset if already running, else set the start event. -/
def restart_timer (s : TimerState) : TimerState :=
  let s1 := { s with count := s.interval / s.sleep_chunk }
  let s2 := if s1.defer = false ∧ 0 < s1.interval then fire s1 else s1
  if s2.start_event then { s2 with reset_event := true }
  else { s2 with start_event := true }

/-- A Python numeric argument as passed to `change_interval`:
either an `int` or a `float` (the `isinstance(seconds, int)` test
distinguishes them). -/
inductive PyNum where
  | int (n : ℤ)
  | float (q : ℚ)
  deriving DecidableEq

/-- Method `change_interval(seconds)`: accepted only when
`isinstance(seconds, int) and seconds > 0`; on acceptance the interval
is updated and `restart_timer` runs; otherwise only an error is logged
and nothing changes. -/
def change_interval (s : TimerState) (seconds : PyNum) : TimerState :=
  match seconds with
  | .int n => if 0 < n then restart_timer { s with interval := (n : ℚ) } else s
  | .float _ => s

/-- Method `terminate`: `self.stop_timer()` then `self.terminate_event.set()`. -/
def terminate (s : TimerState) : TimerState :=
  let s1 := stop_timer s
  { s1 with terminate_event := true }

/-- The exceptions `__init__` can raise: the explicit `ValueError` for a
missing callback, and the `ZeroDivisionError` from the unguarded
`self.interval / self.sleep_chunk`. -/
inductive InitError where
  | valueError
  | zeroDivisionError
  deriving DecidableEq

/-- Constructor `__init__`: stores `interval`; raises `ValueError` if `callback is
None`; computing `self.count = self.interval / self.sleep_chunk` raises
`ZeroDivisionError` when `sleep_chunk` is zero (no validation guards
it).  All three events start cleared.  `auto_start` only launches the
thread (whose loop idles until `start_timer`) and adds no state. -/
def init (callback : Option Unit) (seconds : ℚ) (sleep_chunk : ℚ)
    (defer : Bool) : Except InitError TimerState :=
  if callback = none then .error .valueError
  else if sleep_chunk = 0 then .error .zeroDivisionError
  else .ok { interval := seconds, sleep_chunk := sleep_chunk,
             count := seconds / sleep_chunk, defer := defer,
             start_event := false, reset_event := false,
             terminate_event := false, fired := 0 }

/-- Variant of `runCycle` in which the user callback may raise:
`cbOk = false` means the callback raises when invoked.  There is no
`try/except` in `run`, so the exception (carrying the state at the
moment of the raise) propagates as `Except.error`. -/
def runCycleE (cbOk : Bool) (s : TimerState) (signaled : Bool) :
    Except TimerState TimerState :=
  let s1 := if signaled then
    { s with reset_event := false, count := s.interval / s.sleep_chunk }
    else s
  let s2 := { s1 with count := s1.count - 1 }
  if s2.count ≤ 0 then
    if cbOk then .ok { fire s2 with count := s2.interval / s2.sleep_chunk }
    else .error s2
  else .ok s2

/-- Inner loop of `run` with a possibly-raising callback. -/
def innerLoopE (cbOk : Bool) : List Bool → TimerState →
    Except TimerState (TimerState × List Bool)
  | [], s => .ok (s, [])
  | b :: rest, s =>
    if innerCond s then
      match runCycleE cbOk s b with
      | .error e => .error e
      | .ok s1 => innerLoopE cbOk rest s1
    else .ok (s, b :: rest)

/-- Outer loop of `run` with a possibly-raising callback; an uncaught
callback exception aborts the whole loop. -/
def runE (cbOk : Bool) : ℕ → TimerState → List Bool →
    Except TimerState TimerState
  | 0, s, _ => .ok s
  | n + 1, s, sigs =>
    if s.terminate_event then .ok s
    else
      match innerLoopE cbOk sigs s with
      | .error e => .error e
      | .ok (s1, rest) => runE cbOk n s1 rest

end RepeatingTimer

end Headless

open Headless Headless.RepeatingTimer

/-! ## Claim theorems -/

/-- Claim C9: the constructor never validates `sleep_chunk`; for
`sleep_chunk = 0` the unguarded `interval / sleep_chunk` in `__init__`
raises a division error, for any interval and any non-`None` callback. -/
theorem c9_init_sleep_chunk_zero_division (secs : ℚ) (df : Bool) :
    init (some ()) secs 0 df = .error .zeroDivisionError := rfl

/-- Claim C6: `stop_timer` clears only the running signal; interval,
count, sleep_chunk, defer, the reset and terminate signals and the
firing count are unchanged, and a later `start_timer` resumes the
countdown from the preserved remaining value. -/
theorem c6_stop_timer_frame (s : TimerState) :
    (stop_timer s).start_event = false ∧
    (stop_timer s).interval = s.interval ∧
    (stop_timer s).count = s.count ∧
    (stop_timer s).sleep_chunk = s.sleep_chunk ∧
    (stop_timer s).defer = s.defer ∧
    (stop_timer s).reset_event = s.reset_event ∧
    (stop_timer s).terminate_event = s.terminate_event ∧
    (stop_timer s).fired = s.fired ∧
    (start_timer (stop_timer s)).count = s.count ∧
    (start_timer (stop_timer s)).start_event = true := by
  refine ⟨rfl, rfl, rfl, rfl, rfl, rfl, rfl, rfl, ?_, rfl⟩
  simp only [start_timer, stop_timer, fire]
  split <;> rfl

/-- Claim C4: `change_interval` accepts exactly the positive integers;
on acceptance it sets the interval and performs `restart_timer`; any
other argument (non-positive integer or float) leaves the whole state
unchanged, with only an error logged and no exception raised. -/
theorem c4_change_interval_validation (s : TimerState) (n : ℤ) (q : ℚ) :
    (0 < n → change_interval s (.int n) =
      restart_timer { s with interval := (n : ℚ) }) ∧
    (¬ 0 < n → change_interval s (.int n) = s) ∧
    change_interval s (.float q) = s := by
  refine ⟨fun h => ?_, fun h => ?_, rfl⟩ <;> simp [change_interval, h]

/-- Concrete idle timer state used to instantiate claim theorems. -/
def c4state : TimerState := ⟨3, 1/4, 12, true, false, false, false, 0⟩

/-- Witness for C4 at a concrete state: `change_interval 5` is accepted
and equals `restart_timer` after the interval update; `0` and `2.5` are
rejected and change nothing. -/
theorem c4_change_interval_validation_witness :
    change_interval c4state (.int 5) =
      restart_timer { c4state with interval := ((5 : ℤ) : ℚ) } ∧
    change_interval c4state (.int 0) = c4state ∧
    change_interval c4state (.float (5/2)) = c4state :=
  ⟨(c4_change_interval_validation c4state 5 (5/2)).1 (by decide),
   (c4_change_interval_validation c4state 0 (5/2)).2.1 (by decide),
   (c4_change_interval_validation c4state 0 (5/2)).2.2⟩

/-- Claim C5: `restart_timer` always reloads `count` to
`interval / sleep_chunk` regardless of prior progress; it fires the
callback exactly once when `defer` is false and the interval is
positive; if the running signal is set it sets the reset signal
(leaving running set), otherwise it sets the running signal (leaving
the reset signal as it was). -/
theorem c5_restart_timer_spec (s : TimerState) :
    (restart_timer s).count = s.interval / s.sleep_chunk ∧
    (restart_timer s).fired =
      s.fired + (if s.defer = false ∧ 0 < s.interval then 1 else 0) ∧
    (s.start_event = true →
      (restart_timer s).reset_event = true ∧
      (restart_timer s).start_event = true) ∧
    (s.start_event = false →
      (restart_timer s).start_event = true ∧
      (restart_timer s).reset_event = s.reset_event) := by
  simp only [restart_timer, fire]
  split_ifs <;> simp_all

/-- Concrete running state used to instantiate claim theorems. -/
def c5run : TimerState := ⟨4, 1, 1, false, true, false, false, 0⟩

/-- Concrete stopped state used to instantiate claim theorems. -/
def c5idle : TimerState := ⟨4, 1, 1, true, false, true, false, 0⟩

/-- Witness for C5: at a running state `restart_timer` signals a reset;
at a stopped state it sets the running signal and leaves the reset
signal alone. -/
theorem c5_restart_timer_spec_witness :
    ((restart_timer c5run).reset_event = true ∧
      (restart_timer c5run).start_event = true) ∧
    ((restart_timer c5idle).start_event = true ∧
      (restart_timer c5idle).reset_event = c5idle.reset_event) :=
  ⟨(c5_restart_timer_spec c5run).2.2.1 (by decide),
   (c5_restart_timer_spec c5idle).2.2.2 (by decide)⟩

/-- Closed form of one inner-loop cycle: the wait observation selects
the countdown base (`interval / sleep_chunk` on a reset, the current
`count` otherwise), the decrement is applied unconditionally, and the
callback fires exactly when the decremented value is at most zero. -/
theorem runCycle_simp (s : TimerState) (b : Bool) :
    runCycle s b =
      (if (if b then s.interval / s.sleep_chunk else s.count) - 1 ≤ 0 then
        { s with reset_event := if b then false else s.reset_event,
                 count := s.interval / s.sleep_chunk,
                 fired := s.fired + 1 }
      else
        { s with reset_event := if b then false else s.reset_event,
                 count := (if b then s.interval / s.sleep_chunk else s.count) - 1 }) := by
  cases b <;>
    simp only [runCycle, fire, Bool.false_eq_true, Bool.true_eq_false,
      eq_self_iff_true, if_true, if_false, ite_true, ite_false]

/-- Concrete state for C2: running, reset signal pending, interval 4,
sleep_chunk 1, countdown in progress. -/
def c2state : TimerState := ⟨4, 1, 2, true, true, true, false, 0⟩

/-- Claim C2 counterexample: on a cycle whose wait observes the reset
signal, `run` still executes `self.count -= 1`, so the cycle does not
leave `count` at the reloaded value `interval / sleep_chunk` as the
claim states (it leaves `interval / sleep_chunk - 1`). -/
theorem c2_counterexample :
    (runCycle c2state true).count ≠ c2state.interval / c2state.sleep_chunk := by
  norm_num [runCycle, fire, c2state]

/-- Claim C2 amended: on a signaled cycle the loop clears the reset
signal and reloads `count` to `interval / sleep_chunk`, but then still
decrements it by 1 in the same cycle; the decrement by 1 happens on
every cycle, signaled or timed out alike (stated here on the cycles
where the decrement does not immediately trigger a firing). -/
theorem c2_reset_cycle_still_decrements (s : TimerState) :
    (runCycle s true).reset_event = false ∧
    (¬ s.interval / s.sleep_chunk - 1 ≤ 0 →
      (runCycle s true).count = s.interval / s.sleep_chunk - 1) ∧
    (¬ s.count - 1 ≤ 0 → (runCycle s false).count = s.count - 1) := by
  refine ⟨?_, fun h => ?_, fun h => ?_⟩
  · rw [runCycle_simp]
    simp only [ite_true, if_true]
    split <;> rfl
  · rw [runCycle_simp]
    simp only [ite_true, if_true, if_neg h]
  · rw [runCycle_simp]
    simp only [Bool.false_eq_true, ite_false, if_false, if_neg h]

/-- Witness for the amended C2 at the concrete state: the signaled
cycle ends one below the reloaded value and a timed-out cycle ends one
below the previous value. -/
theorem c2_reset_cycle_still_decrements_witness :
    (runCycle c2state true).count = c2state.interval / c2state.sleep_chunk - 1 ∧
    (runCycle c2state false).count = c2state.count - 1 :=
  ⟨(c2_reset_cycle_still_decrements c2state).2.1 (by norm_num [c2state]),
   (c2_reset_cycle_still_decrements c2state).2.2 (by norm_num [c2state])⟩

/-- Concrete running state with `defer = false` for C3. -/
def c3state : TimerState := ⟨3, 1/4, 12, false, true, false, false, 0⟩

/-- Claim C3 counterexample: `start_timer` on an already running timer
with `defer` false fires the callback again, so the call is not
state-preserving regardless of the defer setting. -/
theorem c3_counterexample :
    c3state.start_event = true ∧ (start_timer c3state).fired ≠ c3state.fired := by
  norm_num [start_timer, fire, c3state]

/-- Claim C3 amended: `start_timer` on an already running timer is
idempotent (changes nothing, fires nothing) when `defer` is true or the
interval is not positive; when `defer` is false and the interval is
positive every call fires the callback once and changes nothing else. -/
theorem c3_start_timer_idempotent_when_defer (s : TimerState)
    (hrun : s.start_event = true) :
    (s.defer = true ∨ ¬ 0 < s.interval → start_timer s = s) ∧
    (s.defer = false → 0 < s.interval →
      start_timer s = { s with fired := s.fired + 1 }) := by
  obtain ⟨iv, sc, ct, df, se, re, te, fi⟩ := s
  simp only at hrun
  subst hrun
  constructor
  · rintro (hd | hi)
    · simp only at hd
      simp [start_timer, fire, hd]
    · simp only at hi
      simp [start_timer, fire, hi]
  · intro hd hi
    simp only at hd hi
    simp [start_timer, fire, hd, hi]

/-- Concrete running state with `defer = true` for the C3 witness. -/
def c3defer : TimerState := ⟨3, 1/4, 12, true, true, false, false, 0⟩

/-- Witness for the amended C3: with `defer` true the call is a no-op;
with `defer` false it increments the firing count by exactly one. -/
theorem c3_start_timer_idempotent_when_defer_witness :
    start_timer c3defer = c3defer ∧
    start_timer c3state = { c3state with fired := c3state.fired + 1 } :=
  ⟨(c3_start_timer_idempotent_when_defer c3defer rfl).1 (Or.inl rfl),
   (c3_start_timer_idempotent_when_defer c3state rfl).2 rfl (by norm_num [c3state])⟩

/-- Terminated timer state with `defer = false`, mid-countdown, reached
by calling `terminate` on a running timer. -/
def c1state : TimerState := terminate ⟨3, 1/4, 5, false, true, false, false, 0⟩

/-- Claim C1 counterexample: after `terminate()` the control calls are
not ignored — `start_timer` on a terminated timer with `defer` false
still invokes the callback, and `restart_timer` still changes the
countdown state. -/
theorem c1_counterexample :
    c1state.terminate_event = true ∧
    (start_timer c1state).fired ≠ c1state.fired ∧
    (restart_timer c1state).count ≠ c1state.count := by
  norm_num [c1state, terminate, stop_timer, start_timer, restart_timer, fire]

/-- Claim C1 amended: once `terminate()` has run, the terminate signal
is set and no control call clears it, so the background loop is inert
and never fires the callback again; however, subsequent control calls
are not ignored: with `defer` false and a positive interval,
`start_timer` still invokes the callback directly, and `restart_timer`
still resets the countdown. -/
theorem c1_terminated_loop_inert (n : ℕ) (s : TimerState)
    (sigs : List Bool) (h : s.terminate_event = true) :
    run n s sigs = s ∧
    (start_timer s).terminate_event = true ∧
    (stop_timer s).terminate_event = true ∧
    (restart_timer s).terminate_event = true ∧
    (∀ x, (change_interval s x).terminate_event = true) ∧
    (terminate s).terminate_event = true ∧
    (s.defer = false → 0 < s.interval →
      (start_timer s).fired = s.fired + 1 ∧
      (restart_timer s).count = s.interval / s.sleep_chunk) := by
  refine ⟨?_, ?_, h, ?_, ?_, rfl, fun hd hi => ⟨?_, ?_⟩⟩
  · cases n <;> simp [run, h]
  · simp [start_timer, fire, apply_ite TimerState.terminate_event, h]
  · simp [restart_timer, fire, apply_ite TimerState.terminate_event, h]
  · intro x
    cases x with
    | int m =>
      by_cases hm : 0 < m
      · simp [change_interval, if_pos hm, restart_timer, fire,
          apply_ite TimerState.terminate_event, h]
      · simp only [change_interval, if_neg hm]
        exact h
    | float q => exact h
  · simp [start_timer, fire, apply_ite TimerState.fired, hd, hi]
  · simp [restart_timer, fire, apply_ite TimerState.count]

/-- Witness for the amended C1 at the concrete terminated state: the
loop returns it unchanged and a subsequent `start_timer` still fires. -/
theorem c1_terminated_loop_inert_witness :
    run 2 c1state [true, false] = c1state ∧
    (start_timer c1state).fired = c1state.fired + 1 :=
  ⟨(c1_terminated_loop_inert 2 c1state [true, false] rfl).1,
   ((c1_terminated_loop_inert 2 c1state [true, false] rfl).2.2.2.2.2.2
     rfl (by norm_num [c1state, terminate, stop_timer])).1⟩

/-- Claim C7: the inner countdown runs only under the guard
running AND interval > 0 AND count > 0; each cycle invokes the callback
at most once, exactly when the decremented count is at most zero, and a
firing is immediately followed by reloading `count` to
`interval / sleep_chunk`. -/
theorem c7_inner_loop_guard_single_fire :
    (∀ s : TimerState,
      innerCond s = true ↔
        0 < s.count ∧ s.start_event = true ∧ 0 < s.interval) ∧
    (∀ (sigs : List Bool) (s : TimerState),
      innerCond s = false → innerLoop sigs s = (s, sigs)) ∧
    (∀ (s : TimerState) (b : Bool), (runCycle s b).fired ≤ s.fired + 1) ∧
    (∀ (s : TimerState) (b : Bool),
      ((runCycle s b).fired = s.fired + 1 ↔
        (if b then s.interval / s.sleep_chunk else s.count) - 1 ≤ 0)) ∧
    (∀ (s : TimerState) (b : Bool),
      (if b then s.interval / s.sleep_chunk else s.count) - 1 ≤ 0 →
      (runCycle s b).count = s.interval / s.sleep_chunk) := by
  refine ⟨fun s => ?_, fun sigs s h => ?_, fun s b => ?_, fun s b => ?_,
    fun s b h => ?_⟩
  · simp [innerCond, and_assoc]
  · cases sigs <;> simp [innerLoop, h]
  · rw [runCycle_simp]
    split_ifs <;> simp
  · rw [runCycle_simp]
    split_ifs with h2 <;> simp [h2] <;> linarith
  · rw [runCycle_simp, if_pos h]

/-- Idle state (running signal cleared) for the C7 witness. -/
def c7idle : TimerState := ⟨3, 1, 4, true, false, false, false, 0⟩

/-- Running state one tick from firing for the C7 witness. -/
def c7fire : TimerState := ⟨2, 1, 1, true, true, false, false, 0⟩

/-- Witness for C7: the inner loop does nothing on a non-running state,
and a firing cycle reloads the countdown to the full interval. -/
theorem c7_inner_loop_guard_single_fire_witness :
    innerLoop [true, false] c7idle = (c7idle, [true, false]) ∧
    (runCycle c7fire false).count = c7fire.interval / c7fire.sleep_chunk :=
  ⟨c7_inner_loop_guard_single_fire.2.1 [true, false] c7idle
    (by norm_num [innerCond, c7idle]),
   c7_inner_loop_guard_single_fire.2.2.2.2 c7fire false
    (by norm_num [c7fire])⟩

/-- Claim C8 counterexample: a construction with a non-`None` callback
can still raise — with `sleep_chunk = 0` the unguarded division in
`__init__` raises even though a callback was supplied. -/
theorem c8_counterexample :
    init (some ()) 3 0 true = .error .zeroDivisionError := rfl

/-- Claim C8 amended: constructing with `callback = None` raises a
`ValueError` to the caller before the background loop starts, and no
timer state is produced; constructing with a non-`None` callback raises
nothing provided `sleep_chunk` is nonzero (with `sleep_chunk = 0` the
division in `__init__` still raises). -/
theorem c8_init_callback_required (secs sc : ℚ) (df : Bool) :
    init none secs sc df = .error .valueError ∧
    (¬ sc = 0 →
      init (some ()) secs sc df =
        .ok ⟨secs, sc, secs / sc, df, false, false, false, 0⟩) := by
  refine ⟨rfl, fun h => ?_⟩
  simp [init, h]

/-- Witness for the amended C8: with the default tick size 1/4 the
construction succeeds when a callback is supplied and fails with a
`ValueError` when it is not. -/
theorem c8_init_callback_required_witness :
    init none 3 (1/4) true = .error .valueError ∧
    init (some ()) 3 (1/4) true =
      .ok ⟨3, 1/4, 3 / (1/4), true, false, false, false, 0⟩ :=
  ⟨(c8_init_callback_required 3 (1/4) true).1,
   (c8_init_callback_required 3 (1/4) true).2 (by norm_num)⟩

/-- A cycle with a raising callback records no firing and leaves the
terminate signal alone, whether it returns normally or raises. -/
theorem runCycleE_false_preserves (s : TimerState) (b : Bool) :
    (∀ t, runCycleE false s b = .ok t →
      t.fired = s.fired ∧ t.terminate_event = s.terminate_event) ∧
    (∀ e, runCycleE false s b = .error e →
      e.fired = s.fired ∧ e.terminate_event = s.terminate_event) := by
  cases b <;>
    · simp only [runCycleE, fire, Bool.false_eq_true, Bool.true_eq_false,
        eq_self_iff_true, if_true, if_false, ite_true, ite_false]
      constructor <;> intro t h <;> split_ifs at h <;>
        simp only [Except.ok.injEq, Except.error.injEq, reduceCtorEq] at h <;>
        subst h <;> exact ⟨rfl, rfl⟩

/-- The inner loop with a raising callback records no firing and leaves
the terminate signal alone, whether it completes or propagates the
callback exception. -/
theorem innerLoopE_false_inert (sigs : List Bool) (s : TimerState) :
    (∀ t rest, innerLoopE false sigs s = .ok (t, rest) →
      t.fired = s.fired ∧ t.terminate_event = s.terminate_event) ∧
    (∀ e, innerLoopE false sigs s = .error e →
      e.fired = s.fired ∧ e.terminate_event = s.terminate_event) := by
  induction sigs generalizing s with
  | nil =>
    constructor
    · intro t rest h
      simp only [innerLoopE, Except.ok.injEq, Prod.mk.injEq] at h
      rw [← h.1]
      exact ⟨rfl, rfl⟩
    · intro e h
      simp [innerLoopE] at h
  | cons b rest ih =>
    constructor
    · intro t rest2 h
      rw [innerLoopE] at h
      split_ifs at h with hg
      · cases hc : runCycleE false s b with
        | error e2 =>
          rw [hc] at h
          simp at h
        | ok s1 =>
          rw [hc] at h
          have hstep := (runCycleE_false_preserves s b).1 s1 hc
          have htail := (ih s1).1 t rest2 h
          exact ⟨htail.1.trans hstep.1, htail.2.trans hstep.2⟩
      · simp only [Except.ok.injEq, Prod.mk.injEq] at h
        rw [← h.1]
        exact ⟨rfl, rfl⟩
    · intro e h
      rw [innerLoopE] at h
      split_ifs at h with hg
      · cases hc : runCycleE false s b with
        | error e2 =>
          rw [hc] at h
          simp only [Except.error.injEq] at h
          rw [← h]
          exact (runCycleE_false_preserves s b).2 e2 hc
        | ok s1 =>
          rw [hc] at h
          have hstep := (runCycleE_false_preserves s b).1 s1 hc
          have htail := (ih s1).2 e h
          exact ⟨htail.1.trans hstep.1, htail.2.trans hstep.2⟩

/-- Claim C10: with a callback that raises, the exception escapes `run`
uncaught (an inner-loop error is the result of the whole run), the loop
records no firing, and the terminate signal is never set by the
failure. -/
theorem c10_callback_error_propagates (n : ℕ) (s : TimerState)
    (sigs : List Bool) (e : TimerState) :
    (runE false n s sigs = .error e →
      e.fired = s.fired ∧ e.terminate_event = s.terminate_event) ∧
    (s.terminate_event = false → innerLoopE false sigs s = .error e →
      runE false (n + 1) s sigs = .error e) := by
  constructor
  · induction n generalizing s sigs with
    | zero =>
      intro h
      simp [runE] at h
    | succ n ih =>
      intro h
      rw [runE] at h
      split_ifs at h with ht
      cases hi : innerLoopE false sigs s with
        | error e2 =>
          rw [hi] at h
          simp only [Except.error.injEq] at h
          rw [← h]
          exact (innerLoopE_false_inert sigs s).2 e2 hi
        | ok p =>
          rw [hi] at h
          obtain ⟨s1, rest⟩ := p
          have htail := ih s1 rest h
          have hstep := (innerLoopE_false_inert sigs s).1 s1 rest hi
          exact ⟨htail.1.trans hstep.1, htail.2.trans hstep.2⟩
  · intro ht hi
    rw [runE]
    simp [ht, hi]

/-- Running state one tick from a firing, for the C10 witness. -/
def c10state : TimerState := ⟨1, 1, 1, true, true, false, false, 0⟩

/-- The state carried by the propagated callback exception in the C10
witness run. -/
def c10err : TimerState := ⟨1, 1, 0, true, true, false, false, 0⟩

/-- Witness for C10: a one-cycle run whose callback raises ends in the
propagated exception, with no firing recorded and the terminate signal
still clear. -/
theorem c10_callback_error_propagates_witness :
    runE false 1 c10state [false] = .error c10err ∧
    c10err.fired = c10state.fired ∧
    c10err.terminate_event = c10state.terminate_event :=
  ⟨(c10_callback_error_propagates 0 c10state [false] c10err).2 rfl
    (by norm_num [innerLoopE, runCycleE, innerCond, fire, c10state, c10err]),
   (c10_callback_error_propagates 1 c10state [false] c10err).1
    (by norm_num [runE, innerLoopE, runCycleE, innerCond, fire, c10state, c10err])⟩
